import Mathlib

/-!
Verification of the `decorana` Python wrapper (file `decorana.py`).

The repository wraps M.O. Hill's Fortran DECORANA program: `decorana`
compiles `decorana.f`, writes `cep.dat` and `params.dat` in the current
working directory, runs the compiled executable through the shell, reads
`decorana.out`, removes its temporary files and returns score arrays and
labels.  The development below is a shallow embedding of that wrapper:

* Python strings are Lean `String`s; `str.split()`, slicing, `rstrip`,
  `ljust` and `%`-formatting are reimplemented structurally so that the
  kernel can evaluate them (`pySplit`, `pyTake`, `pyDrop`, `rstripDot`,
  `ljust8`, `fmtI3`, `fmtF30`).
* The dataframe argument is modelled by `Df` (index labels, column labels,
  integer cells); `__write_cep` only ever compares cells to `0` and prints
  them with `%3.0f`, so integer cells lose nothing that the claims need.
* Everything the wrapper does to the outside world (file writes and
  removals, process spawns, `shutil.which`, `os.getcwd`, reads of the
  dataframe) is recorded in an explicit `Effect` trace; the observable
  environment (whether `gfortran` exists, the exit codes of the two
  spawned processes, the contents of `decorana.out` produced by the
  external Fortran program, the working directory) is the record `Env`.
  The Fortran program itself (`decorana.f`) is not part of `src/`; its
  observable behaviour is modelled from the spec as the deterministic
  data `Env.outLines`.
* A raised Python exception is `Except.error` with the exact message the
  code formats; the uncaught `IndexError` that `__make_cepnames` can hit
  on a whitespace-only name is `PyErr.indexError`.
-/

/-- Python `str.split()` on a list of characters: split on runs of
whitespace, discarding empty fields. -/
def splitWsAux : List Char → List Char → List (List Char)
  | [], cur => if cur = [] then [] else [cur.reverse]
  | c :: rest, cur =>
    if c.isWhitespace then
      if cur = [] then splitWsAux rest []
      else cur.reverse :: splitWsAux rest []
    else splitWsAux rest (c :: cur)

/-- Python `name.split()` (no separator argument). -/
def pySplit (s : String) : List String :=
  (splitWsAux s.data []).map fun l => ⟨l⟩

/-- Python slice `s[0:n]`. -/
def pyTake (s : String) (n : Nat) : String := ⟨s.data.take n⟩

/-- Python slice `s[n:]`. -/
def pyDrop (s : String) (n : Nat) : String := ⟨s.data.drop n⟩

/-- Python `s.rstrip('.')`: remove all trailing period characters. -/
def rstripDot (s : String) : String :=
  ⟨(s.data.reverse.dropWhile (· = '.')).reverse⟩

/-- Python `s.ljust(8)`: pad with spaces on the right to width 8. -/
def ljust8 (s : String) : String :=
  s ++ ⟨List.replicate (8 - s.length) ' '⟩

/-- Python `"%3d" % n`: decimal rendering right-justified to width 3. -/
def fmtI3 (n : Int) : String :=
  let s := toString n
  (⟨List.replicate (3 - s.length) ' '⟩ : String) ++ s

/-- Python `"%3.0f" % v` for the integer-valued cells of the matrix:
identical to `"%3d"` on integers. -/
def fmtF30 (v : Int) : String := fmtI3 v

/-- The abbreviation `cepstr` that `__make_cepnames` computes for one
name before duplicate handling (`decorana.py` lines 262-268).  `none`
models the uncaught `IndexError` of `name.split()[0]` on a name with no
tokens; the caught `IndexError` of the `str2` lookup falls back to
`str1` as in the `try/except` of the source. -/
def pyCepstr (si : Bool) (name : String) : Option String :=
  match pySplit name with
  | [] => none
  | t1 :: rest =>
    let n := if si then 2 else (t1 :: rest).length
    let str2 := ((t1 :: rest).get? (n - 1)).getD t1
    some (if t1 ≠ str2 then pyTake t1 4 ++ rstripDot (pyTake str2 4) else pyTake t1 8)

/-- The accumulating loop of `__make_cepnames` (`decorana.py` lines
259-274): `acc` is the `cepnames` list built so far and `count` the
running duplicate counter (initially 1). -/
def mcnAux (si : Bool) : List String → List String → Nat → Option (List String)
  | [], acc, _ => some acc
  | name :: rest, acc, count =>
    match pyCepstr si name with
    | none => none
    | some cep =>
      if cep ∈ acc then
        mcnAux si rest (acc ++ [pyTake cep 7 ++ toString count]) (count + 1)
      else
        mcnAux si rest (acc ++ [cep]) count

/-- `__make_cepnames(names, seconditem)`: abbreviate every name.  `none`
models an uncaught `IndexError` escaping the function. -/
def makeCepnames (si : Bool) (names : List String) : Option (List String) :=
  mcnAux si names [] 1

/-- The pandas dataframe argument of `decorana`, reduced to what the
wrapper reads: `data.index`, `data.columns`, `data.shape` and the cells
`data.iloc[i, j]`. -/
structure Df where
  index : List String
  columns : List String
  cells : List (List Int)
deriving DecidableEq

/-- `data.iloc[i, j]` (out-of-range access defaults to `0`; the wrapper
only indexes inside `data.shape`). -/
def dfCell (df : Df) (i j : Nat) : Int :=
  (((df.cells.get? i).getD []).get? j).getD 0

/-- The keyword arguments of `decorana` (`iweight`, `iresc`, `ira`,
`mk`, `short`), all integers, all defaulting to `0` in the source. -/
structure Config where
  mkCfg ::
  iweight : Int := 0
  iresc : Int := 0
  ira : Int := 0
  mk : Int := 0
  short : Int := 0
deriving DecidableEq

/-- The parts of the dataframe the wrapper can touch; distinguishing
reads from writes makes "the wrapper never mutates its input" a
statable property. -/
inductive DfField where
  | shape
  | index
  | columns
  | cells
deriving DecidableEq

/-- One observable side effect of the wrapper.  `dfWrite` never occurs
in any trace the wrapper produces; it is part of the vocabulary so that
its absence is expressible. -/
inductive Effect where
  | which (prog : String)
  | getcwd
  | spawn (args : List String)
  | spawnShell (cmd : String)
  | writeFile (name content : String)
  | readFile (name : String)
  | removeFile (name : String)
  | dfRead (f : DfField)
  | dfWrite (f : DfField)
deriving DecidableEq

/-- `true` exactly on mutations of the caller's dataframe. -/
def isDfWrite : Effect → Bool
  | Effect.dfWrite _ => true
  | _ => false

/-- A raised Python exception: `Exception(msg)` or an uncaught
`IndexError`. -/
inductive PyErr where
  | exception (msg : String)
  | indexError
deriving DecidableEq

/-- The observable environment of one run: result of
`shutil.which('gfortran')`, exit codes of the compile and of the
DECORANA process, the lines the external Fortran program leaves in
`decorana.out`, and the current working directory.  `outLines` is
modelled from the spec: the Fortran source `decorana.f` is not under
`src/`, and the spec describes the ordination routine as deterministic,
so its observable output is fixed data of the environment. -/
structure Env where
  gfortranPath : Option String
  compileExit : Int
  runExit : Int
  outLines : List String
  cwd : String
deriving DecidableEq

/-- The value `decorana` returns on success: `site_scores`,
`species_scores`, `row_lab`, `col_lab`.  `np.genfromtxt` is a library
call, modelled as whitespace tokenization keeping the four selected
columns as strings (no claim depends on float parsing). -/
structure RunOutput where
  siteScores : List (List String)
  speciesScores : List (List String)
  siteLabels : List String
  speciesLabels : List String
deriving DecidableEq

deriving instance DecidableEq for Except

/-- Trace of side effects plus the returned value or raised exception
of one call of `decorana`. -/
structure RunResult where
  trace : List Effect
  result : Except PyErr RunOutput
deriving DecidableEq

/-- `true` on a normal return. -/
def isOkRun (r : RunResult) : Bool :=
  match r.result with
  | Except.ok _ => true
  | Except.error _ => false

/-- The species-label component of a run, `[]` on an exception. -/
def okSpeciesLabels (r : RunResult) : List String :=
  match r.result with
  | Except.ok o => o.speciesLabels
  | Except.error _ => []

/-- `__compile_fortran()` with its default argument `'decorana.f'`
(`decorana.py` lines 143-165): look up `gfortran`, compile to
`decorana.exe` in the current working directory, fail on a missing
compiler or a non-zero compiler exit. -/
def compileFortran (env : Env) : List Effect × Except PyErr String :=
  match env.gfortranPath with
  | some compiler =>
    let exe := env.cwd ++ "/decorana.exe"
    let tr := [Effect.which "gfortran", Effect.getcwd,
      Effect.spawn [compiler, "-o", exe, "decorana.f"]]
    if env.compileExit = 0 then (tr, Except.ok exe)
    else (tr, Except.error (PyErr.exception "Compilation of decorana.f failed!"))
  | none =>
    ([Effect.which "gfortran"],
      Except.error (PyErr.exception "GNU Fortran compiler is not installed!"))

/-- The inner couplet loop of `__write_cep` for one row `i`
(`decorana.py` lines 207-223): `nw` is `number_written`, `rnw` is
`row_number_written`; a couplet is `"%3d%3.0f" % (j + 1, cell)`, a new
output line gets the row number `"%3d" % (i + 1)` first, and every
fifth couplet ends the line. -/
def cepRowAux (i : Nat) : List (Nat × Int) → Nat → Bool → String
  | [], nw, _ => if nw ≠ 0 then "\n" else ""
  | (j, v) :: rest, nw, rnw =>
    if v ≠ 0 then
      let pre := if rnw then "" else fmtI3 ((i : Int) + 1)
      let chunk := pre ++ fmtI3 ((j : Int) + 1) ++ fmtF30 v
      if nw + 1 = 5 then chunk ++ "\n" ++ cepRowAux i rest 0 false
      else chunk ++ cepRowAux i rest (nw + 1) true
    else cepRowAux i rest nw rnw

/-- The condensed-format text contributed by row `i` of the matrix. -/
def cepRowStr (df : Df) (i : Nat) : String :=
  cepRowAux i ((List.range df.columns.length).map fun j => (j, dfCell df i j)) 0 false

/-- The full text `__write_cep` writes to `cep.dat` (`decorana.py`
lines 198-231): title, Fortran format line, couplet width `5`, the
couplet block, terminator `0`, abbreviated column labels (newline after
every tenth), a newline, then row labels left-justified to width 8
(newline after every tenth). -/
def cepContent (df : Df) (col_lab : List String) : String :=
  "dummy title\n" ++ "(I3,5(I3,F3.0))\n" ++ (fmtI3 5 ++ " \n") ++
  String.join ((List.range df.index.length).map fun i => cepRowStr df i) ++
  (fmtI3 0 ++ " \n") ++
  String.join (col_lab.enum.map fun p =>
    p.2 ++ (if (p.1 + 1) % 10 = 0 then "\n" else "")) ++
  "\n" ++
  String.join (df.index.enum.map fun p =>
    ljust8 p.2 ++ (if (p.1 + 1) % 10 = 0 then "\n" else ""))

/-- `__write_cep(data)` (`decorana.py` lines 168-233): read the shape,
the index and the columns, abbreviate the column labels (an uncaught
`IndexError` from `__make_cepnames` propagates before any file write),
then write `cep.dat` and return `(rows, columns, row_lab, col_lab)`. -/
def writeCep (df : Df) :
    List Effect × Except PyErr (Nat × Nat × List String × List String) :=
  let baseTr := [Effect.dfRead DfField.shape, Effect.dfRead DfField.index,
    Effect.dfRead DfField.columns]
  match makeCepnames false df.columns with
  | none => (baseTr, Except.error PyErr.indexError)
  | some col_lab =>
    (baseTr ++ [Effect.dfRead DfField.cells,
        Effect.writeFile "cep.dat" (cepContent df col_lab)],
      Except.ok (df.index.length, df.columns.length, df.index, col_lab))

/-- The exact text `decorana` writes to `params.dat` (`decorana.py`
lines 40-52): the f-string keeps the 8-space indentation of its
continuation lines. -/
def paramsContent (cfg : Config) : String :=
  "cep.dat\n        -1\n        0\n        " ++ toString cfg.iweight ++
  "\n        " ++ toString cfg.iresc ++ "\n        " ++ toString cfg.ira ++
  "\n        " ++ toString cfg.mk ++ "\n        " ++ toString cfg.short ++
  "\n        1\n        0\n        "

/-- `np.genfromtxt(lines, usecols=(0, 1, 2, 3), max_rows=m)` modelled
as tokenization: first `m` lines, whitespace-split, first four fields. -/
def genfromtxt4 (lines : List String) (m : Nat) : List (List String) :=
  (lines.take m).map fun s => (pySplit s).take 4

/-- `decorana(data, iweight, iresc, ira, mk, short)` (`decorana.py`
lines 11-76): compile the Fortran program, write `cep.dat` and
`params.dat`, run `decorana.exe < params.dat` through the shell, raise
on a non-zero exit, remove the three temporary files, read the site and
species scores from `decorana.out` (the species block starts at column
41 of each line), remove the two output files and return scores and
labels. -/
def decorana (env : Env) (df : Df) (cfg : Config) : RunResult :=
  match compileFortran env with
  | (tr, Except.error e) => ⟨tr, Except.error e⟩
  | (tr, Except.ok exe) =>
    match writeCep df with
    | (tr2, Except.error e) => ⟨tr ++ tr2, Except.error e⟩
    | (tr2, Except.ok (nrows, ncols, row_lab, col_lab)) =>
      let tr3 := tr ++ tr2 ++
        [Effect.writeFile "params.dat" (paramsContent cfg),
          Effect.spawnShell (exe ++ " < params.dat")]
      if env.runExit ≠ 0 then
        ⟨tr3, Except.error (PyErr.exception
          ("decorana.exe exited with code " ++ toString env.runExit ++ "!"))⟩
      else
        ⟨tr3 ++ [Effect.removeFile "decorana.exe", Effect.removeFile "cep.dat",
            Effect.removeFile "params.dat", Effect.readFile "decorana.out",
            Effect.readFile "decorana.out", Effect.removeFile "decorana.out",
            Effect.removeFile "decorana.prt"],
          Except.ok ⟨genfromtxt4 env.outLines nrows,
            genfromtxt4 (env.outLines.map fun s => pyDrop s 41) ncols,
            row_lab, col_lab⟩⟩

/-- The effect trace of a fully successful run of `decorana`:
compiler lookup and compile, dataframe reads and `cep.dat` write,
`params.dat` write, shell invocation of the executable, and the five
file removals interleaved with the two reads of `decorana.out`. -/
def successTrace (env : Env) (df : Df) (cfg : Config) (p : String)
    (cl : List String) : List Effect :=
  [Effect.which "gfortran", Effect.getcwd,
    Effect.spawn [p, "-o", env.cwd ++ "/decorana.exe", "decorana.f"],
    Effect.dfRead DfField.shape, Effect.dfRead DfField.index,
    Effect.dfRead DfField.columns, Effect.dfRead DfField.cells,
    Effect.writeFile "cep.dat" (cepContent df cl),
    Effect.writeFile "params.dat" (paramsContent cfg),
    Effect.spawnShell ((env.cwd ++ "/decorana.exe") ++ " < params.dat"),
    Effect.removeFile "decorana.exe", Effect.removeFile "cep.dat",
    Effect.removeFile "params.dat", Effect.readFile "decorana.out",
    Effect.readFile "decorana.out", Effect.removeFile "decorana.out",
    Effect.removeFile "decorana.prt"]

lemma decorana_success_eq (env : Env) (df : Df) (cfg : Config) (p : String)
    (cl : List String) (h1 : env.gfortranPath = some p)
    (h2 : env.compileExit = 0) (h3 : makeCepnames false df.columns = some cl)
    (h4 : env.runExit = 0) :
    decorana env df cfg =
      ⟨successTrace env df cfg p cl,
        Except.ok ⟨genfromtxt4 env.outLines df.index.length,
          genfromtxt4 (env.outLines.map fun s => pyDrop s 41) df.columns.length,
          df.index, cl⟩⟩ := by
  simp only [decorana, compileFortran, writeCep, h1, h2, h3, h4, successTrace]
  simp

lemma length_pyTake_le (s : String) (n : Nat) : (pyTake s n).length ≤ n := by
  show (s.data.take n).length ≤ n
  exact List.length_take_le n s.data

lemma length_rstripDot_le (s : String) : (rstripDot s).length ≤ s.length := by
  show ((s.data.reverse.dropWhile (· = '.')).reverse).length ≤ s.data.length
  rw [List.length_reverse]
  calc (s.data.reverse.dropWhile (· = '.')).length
      ≤ s.data.reverse.length := (List.dropWhile_sublist _).length_le
    _ = s.data.length := List.length_reverse _

lemma pyCepstr_length_le (si : Bool) (name base : String)
    (h : pyCepstr si name = some base) : base.length ≤ 8 := by
  unfold pyCepstr at h
  cases hs : pySplit name with
  | nil => rw [hs] at h; exact absurd h (by simp)
  | cons t1 rest =>
    rw [hs] at h
    simp only [Option.some.injEq] at h
    rw [← h]
    generalize ((t1 :: rest).get? ((if si then 2 else (t1 :: rest).length) - 1)).getD t1 = s2
    by_cases hne : t1 ≠ s2
    · rw [if_pos hne, String.length_append]
      have ha := length_pyTake_le t1 4
      have hb := le_trans (length_rstripDot_le (pyTake s2 4)) (length_pyTake_le s2 4)
      omega
    · rw [if_neg hne]
      exact length_pyTake_le t1 8

lemma pyCepstr_single (si : Bool) (name t : String) (h : pySplit name = [t]) :
    pyCepstr si name = some (pyTake t 8) := by
  unfold pyCepstr
  rw [h]
  cases si <;> simp [List.get?]

lemma mcnAux_shape (si : Bool) (names : List String) :
    ∀ (acc : List String) (count : Nat) (l : List String),
      mcnAux si names acc count = some l →
      ∀ e ∈ l, e ∈ acc ∨ ∃ name, name ∈ names ∧ ∃ base,
        pyCepstr si name = some base ∧
        (e = base ∨ ∃ c : Nat, e = pyTake base 7 ++ toString c) := by
  induction names with
  | nil =>
    intro acc count l h e he
    simp only [mcnAux, Option.some.injEq] at h
    rw [← h] at he
    exact Or.inl he
  | cons name rest ih =>
    intro acc count l h e he
    rcases hc : pyCepstr si name with _ | cep
    · rw [mcnAux, hc] at h
      exact absurd h (by simp)
    · rw [mcnAux, hc] at h
      simp only at h
      by_cases hm : cep ∈ acc
      · rw [if_pos hm] at h
        rcases ih _ _ _ h e he with h1 | ⟨nm, hnm, base, hb, hor⟩
        · rcases List.mem_append.1 h1 with h2 | h2
          · exact Or.inl h2
          · have h3 : e = pyTake cep 7 ++ toString count := by
              simpa using h2
            exact Or.inr ⟨name, by simp, cep, hc, Or.inr ⟨count, h3⟩⟩
        · exact Or.inr ⟨nm, List.mem_cons_of_mem _ hnm, base, hb, hor⟩
      · rw [if_neg hm] at h
        rcases ih _ _ _ h e he with h1 | ⟨nm, hnm, base, hb, hor⟩
        · rcases List.mem_append.1 h1 with h2 | h2
          · exact Or.inl h2
          · have h3 : e = cep := by simpa using h2
            exact Or.inr ⟨name, by simp, cep, hc, Or.inl h3⟩
        · exact Or.inr ⟨nm, List.mem_cons_of_mem _ hnm, base, hb, hor⟩

lemma mcnAux_total (si : Bool) (names : List String) :
    ∀ (acc : List String) (count : Nat),
      (∀ n ∈ names, pySplit n ≠ []) →
      ∃ l, mcnAux si names acc count = some l ∧
        l.length = acc.length + names.length := by
  induction names with
  | nil => exact fun acc count _ => ⟨acc, by simp [mcnAux]⟩
  | cons name rest ih =>
    intro acc count h
    have hn : pySplit name ≠ [] := h name (by simp)
    obtain ⟨t1, ts, hs⟩ : ∃ t1 ts, pySplit name = t1 :: ts := by
      cases hsp : pySplit name with
      | nil => exact absurd hsp hn
      | cons a b => exact ⟨a, b, rfl⟩
    obtain ⟨cep, hc⟩ : ∃ cep, pyCepstr si name = some cep := by
      unfold pyCepstr
      rw [hs]
      exact ⟨_, rfl⟩
    have hr : ∀ n ∈ rest, pySplit n ≠ [] :=
      fun n hn2 => h n (List.mem_cons_of_mem _ hn2)
    by_cases hm : cep ∈ acc
    · obtain ⟨l, hl, hlen⟩ :=
        ih (acc ++ [pyTake cep 7 ++ toString count]) (count + 1) hr
      refine ⟨l, ?_, ?_⟩
      · rw [mcnAux, hc]
        simp only
        rw [if_pos hm]
        exact hl
      · simp at hlen ⊢
        omega
    · obtain ⟨l, hl, hlen⟩ := ih (acc ++ [cep]) count hr
      refine ⟨l, ?_, ?_⟩
      · rw [mcnAux, hc]
        simp only
        rw [if_neg hm]
        exact hl
      · simp at hlen ⊢
        omega

lemma mcnAux_fail (si : Bool) (names : List String) :
    ∀ (acc : List String) (count : Nat) (name : String),
      name ∈ names → pySplit name = [] →
      mcnAux si names acc count = none := by
  induction names with
  | nil => intro acc count name h _; exact absurd h (List.not_mem_nil _)
  | cons hd rest ih =>
    intro acc count name hmem hsp
    rcases List.mem_cons.1 hmem with rfl | hmem2
    · have hc : pyCepstr si name = none := by
        unfold pyCepstr
        rw [hsp]
      rw [mcnAux, hc]
    · rcases hc : pyCepstr si hd with _ | cep
      · rw [mcnAux, hc]
      · rw [mcnAux, hc]
        simp only
        by_cases hm : cep ∈ acc
        · rw [if_pos hm]; exact ih _ _ _ hmem2 hsp
        · rw [if_neg hm]; exact ih _ _ _ hmem2 hsp

lemma cepRowAux_zero (i : Nat) (cells : List (Nat × Int)) :
    ∀ (rnw : Bool), (∀ p ∈ cells, p.2 = 0) → cepRowAux i cells 0 rnw = "" := by
  induction cells with
  | nil => intro rnw _; simp [cepRowAux]
  | cons p rest ih =>
    intro rnw h
    obtain ⟨j, v⟩ := p
    have hv : v = 0 := h (j, v) (by simp)
    rw [cepRowAux, hv]
    simp only [ne_eq, not_true_eq_false, if_false]
    exact ih rnw fun q hq => h q (List.mem_cons_of_mem _ hq)

lemma cepRowStr_zero (df : Df) (i : Nat)
    (h : ∀ j, j < df.columns.length → dfCell df i j = 0) :
    cepRowStr df i = "" := by
  unfold cepRowStr
  apply cepRowAux_zero
  intro p hp
  simp only [List.mem_map, List.mem_range] at hp
  obtain ⟨j, hj, rfl⟩ := hp
  exact h j hj

/-- A benign environment: `gfortran` present, both spawned processes
exit with 0, the external program leaves two lines in `decorana.out`. -/
def benv : Env :=
  ⟨some "/usr/bin/gfortran", 0, 0, ["1 2 3 4", "5 6 7 8"], "/work"⟩

/-- A concrete 2x2 dataframe with an overlong first column label. -/
def dfC : Df := ⟨["s1", "s2"], ["Abcdefghij", "Picea abies"], [[1, 2], [3, 4]]⟩

/-- The default configuration (all keyword arguments 0). -/
def cfg0 : Config := {}

/-- A concrete dataframe whose first row is all zero. -/
def zdf : Df := ⟨["s1", "s2"], ["Abies alba", "Picea abies"], [[0, 0], [1, 2]]⟩

/-- Claim C1 counterexample: on a concrete matrix and configuration the
run's effect trace contains a file write, a shell process spawn and a
`getcwd`, so the entry point is not free of side effects. -/
theorem decorana_has_side_effects_cex :
    Effect.writeFile "params.dat" (paramsContent cfg0) ∈ (decorana benv dfC cfg0).trace ∧
    Effect.spawnShell "/work/decorana.exe < params.dat" ∈ (decorana benv dfC cfg0).trace ∧
    Effect.getcwd ∈ (decorana benv dfC cfg0).trace := by
  exact ⟨by decide, by decide, by decide⟩

/-- Claim C1 (amended): `decorana` is not purely functional.  Every run
queries the environment for `gfortran`; a run that reaches the success
path also calls `getcwd`, writes `cep.dat` and `params.dat`, spawns the
compiled executable through the shell under a CWD-relative name, and
removes its temporary files. -/
theorem decorana_side_effects (env : Env) (df : Df) (cfg : Config) :
    Effect.which "gfortran" ∈ (decorana env df cfg).trace ∧
    (∀ p cl, env.gfortranPath = some p → env.compileExit = 0 →
      makeCepnames false df.columns = some cl → env.runExit = 0 →
      Effect.getcwd ∈ (decorana env df cfg).trace ∧
      Effect.writeFile "cep.dat" (cepContent df cl) ∈ (decorana env df cfg).trace ∧
      Effect.writeFile "params.dat" (paramsContent cfg) ∈ (decorana env df cfg).trace ∧
      Effect.spawnShell ((env.cwd ++ "/decorana.exe") ++ " < params.dat") ∈
        (decorana env df cfg).trace ∧
      Effect.removeFile "decorana.exe" ∈ (decorana env df cfg).trace) := by
  constructor
  · rcases hg : env.gfortranPath with _ | p
    · simp [decorana, compileFortran, hg]
    · by_cases h2 : env.compileExit = 0
      · rcases h3 : makeCepnames false df.columns with _ | cl
        · simp [decorana, compileFortran, writeCep, hg, h2, h3]
        · by_cases h4 : env.runExit = 0
          · rw [decorana_success_eq env df cfg p cl hg h2 h3 h4]
            simp [successTrace]
          · simp [decorana, compileFortran, writeCep, hg, h2, h3, h4]
      · simp [decorana, compileFortran, hg, h2]
  · intro p cl h1 h2 h3 h4
    rw [decorana_success_eq env df cfg p cl h1 h2 h3 h4]
    exact ⟨by simp [successTrace], by simp [successTrace], by simp [successTrace],
      by simp [successTrace], by simp [successTrace]⟩

theorem decorana_side_effects_witness :
    Effect.getcwd ∈ (decorana benv dfC cfg0).trace ∧
    Effect.writeFile "cep.dat" (cepContent dfC ["Abcdefgh", "Piceabie"]) ∈
      (decorana benv dfC cfg0).trace :=
  ⟨((decorana_side_effects benv dfC cfg0).2 "/usr/bin/gfortran"
      ["Abcdefgh", "Piceabie"] rfl rfl (by decide) rfl).1,
    ((decorana_side_effects benv dfC cfg0).2 "/usr/bin/gfortran"
      ["Abcdefgh", "Piceabie"] rfl rfl (by decide) rfl).2.1⟩

/-- Claim C2 counterexample: a concrete matrix whose first row is all
zero runs to a normal result — no `DegenerateInputError` (indeed no
error at all) is raised before or during the run. -/
theorem decorana_zero_row_ok_cex : isOkRun (decorana benv zdf cfg0) = true := by
  decide

/-- Claim C2 (amended): an all-zero row is not rejected.  `__write_cep`
emits no couplet line at all for such a row, and under a benign
environment the run completes normally, returning whatever the external
program left in `decorana.out`; no degenerate-input check exists. -/
theorem decorana_zero_row_behavior (df : Df) (i : Nat)
    (hz : ∀ j, j < df.columns.length → dfCell df i j = 0)
    (env : Env) (cfg : Config) (p : String) (cl : List String)
    (h1 : env.gfortranPath = some p) (h2 : env.compileExit = 0)
    (h3 : makeCepnames false df.columns = some cl) (h4 : env.runExit = 0) :
    cepRowStr df i = "" ∧ isOkRun (decorana env df cfg) = true := by
  refine ⟨cepRowStr_zero df i hz, ?_⟩
  rw [decorana_success_eq env df cfg p cl h1 h2 h3 h4]
  rfl

theorem decorana_zero_row_behavior_witness :
    cepRowStr zdf 0 = "" ∧ isOkRun (decorana benv zdf cfg0) = true :=
  decorana_zero_row_behavior zdf 0 (by decide) benv cfg0 "/usr/bin/gfortran"
    ["Abiealba", "Piceabie"] rfl rfl (by decide) rfl

/-- Claim C3 counterexample: on a concrete input the run succeeds but
the returned species labels differ from the input column labels (they
are the CEP abbreviations). -/
theorem decorana_species_labels_changed_cex :
    isOkRun (decorana benv dfC cfg0) = true ∧
    okSpeciesLabels (decorana benv dfC cfg0) ≠ dfC.columns := by
  exact ⟨by decide, by decide⟩

/-- Claim C3 (amended): on a successful run the site labels are passed
through unchanged (`data.index`), but the species labels are returned
as the abbreviations `__make_cepnames(data.columns)`, not the original
column labels. -/
theorem decorana_labels (env : Env) (df : Df) (cfg : Config) (p : String)
    (cl : List String) (h1 : env.gfortranPath = some p)
    (h2 : env.compileExit = 0) (h3 : makeCepnames false df.columns = some cl)
    (h4 : env.runExit = 0) :
    ∃ out, (decorana env df cfg).result = Except.ok out ∧
      out.siteLabels = df.index ∧ out.speciesLabels = cl := by
  rw [decorana_success_eq env df cfg p cl h1 h2 h3 h4]
  exact ⟨_, rfl, rfl, rfl⟩

theorem decorana_labels_witness :
    ∃ out, (decorana benv dfC cfg0).result = Except.ok out ∧
      out.siteLabels = dfC.index ∧ out.speciesLabels = ["Abcdefgh", "Piceabie"] :=
  decorana_labels benv dfC cfg0 "/usr/bin/gfortran" ["Abcdefgh", "Piceabie"]
    rfl rfl (by decide) rfl

/-- Claim C4 counterexample: an execution in which `gfortran` is absent
fails with the missing-compiler exception, so that error mode exists. -/
theorem decorana_missing_compiler_cex :
    decorana ⟨none, 0, 0, [], "/work"⟩ dfC cfg0 =
      ⟨[Effect.which "gfortran"],
        Except.error (PyErr.exception "GNU Fortran compiler is not installed!")⟩ := by
  decide

/-- Claim C4 (amended): the external-process error modes exist.  A
missing Fortran compiler raises the missing-compiler exception, and a
non-zero exit code of the spawned executable raises the exit-code
exception with that code in the message. -/
theorem decorana_external_error_modes :
    (∀ (env : Env) (df : Df) (cfg : Config), env.gfortranPath = none →
      (decorana env df cfg).result =
        Except.error (PyErr.exception "GNU Fortran compiler is not installed!")) ∧
    (∀ (env : Env) (df : Df) (cfg : Config) (p : String) (cl : List String),
      env.gfortranPath = some p → env.compileExit = 0 →
      makeCepnames false df.columns = some cl → env.runExit ≠ 0 →
      (decorana env df cfg).result =
        Except.error (PyErr.exception
          ("decorana.exe exited with code " ++ toString env.runExit ++ "!"))) := by
  constructor
  · intro env df cfg hg
    simp [decorana, compileFortran, hg]
  · intro env df cfg p cl h1 h2 h3 h4
    simp [decorana, compileFortran, writeCep, h1, h2, h3, h4]

theorem decorana_external_error_modes_witness :
    (decorana ⟨none, 0, 0, [], "/w"⟩ dfC cfg0).result =
      Except.error (PyErr.exception "GNU Fortran compiler is not installed!") ∧
    (decorana ⟨some "/usr/bin/gfortran", 0, 3, [], "/w"⟩ dfC cfg0).result =
      Except.error (PyErr.exception "decorana.exe exited with code 3!") := by
  constructor
  · exact decorana_external_error_modes.1 ⟨none, 0, 0, [], "/w"⟩ dfC cfg0 rfl
  · have h := decorana_external_error_modes.2 ⟨some "/usr/bin/gfortran", 0, 3, [], "/w"⟩
      dfC cfg0 "/usr/bin/gfortran" ["Abcdefgh", "Piceabie"] rfl rfl (by decide) (by decide)
    rw [h]
    decide

/-- Claim C7 counterexample: a configuration with a negative segment
count and a negative shortest-gradient value is accepted: the run
completes normally and the values are written verbatim to
`params.dat`; no `InvalidConfigError` is raised. -/
theorem decorana_invalid_config_accepted_cex :
    isOkRun (decorana benv dfC ⟨0, 0, 0, -5, -1⟩) = true ∧
    Effect.writeFile "params.dat" (paramsContent ⟨0, 0, 0, -5, -1⟩) ∈
      (decorana benv dfC ⟨0, 0, 0, -5, -1⟩).trace := by
  exact ⟨by decide, by decide⟩

/-- Claim C7 (amended): `decorana` performs no configuration
validation: under a benign environment it runs to a normal result for
every configuration, writing the parameter values verbatim into
`params.dat`; no `InvalidConfigError` check exists. -/
theorem decorana_accepts_any_config (env : Env) (df : Df) (cfg : Config)
    (p : String) (cl : List String) (h1 : env.gfortranPath = some p)
    (h2 : env.compileExit = 0) (h3 : makeCepnames false df.columns = some cl)
    (h4 : env.runExit = 0) :
    isOkRun (decorana env df cfg) = true ∧
    Effect.writeFile "params.dat" (paramsContent cfg) ∈ (decorana env df cfg).trace := by
  rw [decorana_success_eq env df cfg p cl h1 h2 h3 h4]
  exact ⟨rfl, by simp [successTrace]⟩

theorem decorana_accepts_any_config_witness :
    isOkRun (decorana benv dfC ⟨0, 0, 0, -5, -1⟩) = true ∧
    Effect.writeFile "params.dat" (paramsContent ⟨0, 0, 0, -5, -1⟩) ∈
      (decorana benv dfC ⟨0, 0, 0, -5, -1⟩).trace :=
  decorana_accepts_any_config benv dfC ⟨0, 0, 0, -5, -1⟩ "/usr/bin/gfortran"
    ["Abcdefgh", "Piceabie"] rfl rfl (by decide) rfl

/-- Claim C8: two runs of `decorana` on the same environment, matrix
and configuration yield the same result and the same effect trace
(determinism as a two-run property; the external Fortran program's
output is deterministic data of the environment, as the spec
requires). -/
theorem decorana_deterministic (env : Env) (df : Df) (cfg : Config)
    (r1 r2 : RunResult) (h1 : r1 = decorana env df cfg)
    (h2 : r2 = decorana env df cfg) :
    r1.result = r2.result ∧ r1.trace = r2.trace := by
  subst h1
  subst h2
  exact ⟨rfl, rfl⟩

theorem decorana_deterministic_witness :
    (decorana benv dfC cfg0).result = (decorana benv dfC cfg0).result ∧
    (decorana benv dfC cfg0).trace = (decorana benv dfC cfg0).trace :=
  decorana_deterministic benv dfC cfg0 _ _ rfl rfl

/-- Claim C9: the wrapper never mutates the caller's dataframe — every
dataframe operation in any run's effect trace is a read. -/
theorem decorana_read_only (env : Env) (df : Df) (cfg : Config) :
    ((decorana env df cfg).trace.all fun e => !isDfWrite e) = true := by
  rcases hg : env.gfortranPath with _ | p
  · simp [decorana, compileFortran, hg, isDfWrite]
  · by_cases h2 : env.compileExit = 0
    · rcases h3 : makeCepnames false df.columns with _ | cl
      · simp [decorana, compileFortran, writeCep, hg, h2, h3, isDfWrite]
      · by_cases h4 : env.runExit = 0
        · rw [decorana_success_eq env df cfg p cl hg h2 h3 h4]
          simp [successTrace, isDfWrite]
        · simp [decorana, compileFortran, writeCep, hg, h2, h3, h4, isDfWrite]
    · simp [decorana, compileFortran, hg, h2, isDfWrite]

/-- Claim C5 counterexample: the abbreviation of `"ab cd"` is
`"abcd"`, which has 4 characters, not 8 — the output is not
fixed-width. -/
theorem makeCepnames_short_output_cex :
    makeCepnames false ["ab cd"] = some ["abcd"] ∧
    ¬ ("abcd" : String).length = 8 := by
  exact ⟨by decide, by decide⟩

/-- Claim C5 (amended): every output of `__make_cepnames` is either
its base abbreviation — the at-most-4-character first-token slice
concatenated with the trailing-dot-stripped at-most-4-character slice
of the last (or second) token, or the at-most-8-character slice of the
token when the two selected tokens coincide — which has at most (not
exactly) 8 characters, or, on a collision, that base cut to 7
characters with a decimal counter appended. -/
theorem makeCepnames_shape (si : Bool) (names l : List String)
    (h : makeCepnames si names = some l) :
    ∀ e ∈ l, ∃ name, name ∈ names ∧ ∃ base, pyCepstr si name = some base ∧
      base.length ≤ 8 ∧
      (e = base ∨ ∃ c : Nat, e = pyTake base 7 ++ toString c) := by
  intro e he
  rcases mcnAux_shape si names [] 1 l h e he with h1 | ⟨nm, hnm, base, hb, hor⟩
  · exact absurd h1 (List.not_mem_nil _)
  · exact ⟨nm, hnm, base, hb, pyCepstr_length_le si nm base hb, hor⟩

theorem makeCepnames_shape_witness :
    ∃ name, name ∈ ["Abies alba", "Abies alba"] ∧ ∃ base,
      pyCepstr false name = some base ∧ base.length ≤ 8 ∧
      (("Abiealb1" : String) = base ∨
        ∃ c : Nat, ("Abiealb1" : String) = pyTake base 7 ++ toString c) :=
  makeCepnames_shape false ["Abies alba", "Abies alba"]
    ["Abiealba", "Abiealb1"] (by decide) "Abiealb1" (by decide)

/-- Claim C6 (code bug): the counter-based deduplication does not make
the outputs pairwise distinct.  On `["aaaaaaa1", "aaaaaaaa",
"aaaaaaaa"]` the third abbreviation is rewritten to `"aaaaaaa1"`,
which collides with the first output, contradicting the docstring's
promise that returned names are unique. -/
theorem makeCepnames_duplicate_output :
    makeCepnames false ["aaaaaaa1", "aaaaaaaa", "aaaaaaaa"] =
      some ["aaaaaaa1", "aaaaaaaa", "aaaaaaa1"] ∧
    ¬ (["aaaaaaa1", "aaaaaaaa", "aaaaaaa1"] : List String).Nodup := by
  exact ⟨by decide, by decide⟩

/-- Claim C10: `__make_cepnames` is total exactly on lists whose names
all have at least one whitespace-separated token: on such a list it
returns (no `IndexError`) a list of the same length; a name splitting
to a single token is abbreviated to the first 8 characters of that
token; and a list containing a tokenless name raises. -/
theorem makeCepnames_totality (si : Bool) (names : List String)
    (h : ∀ n ∈ names, pySplit n ≠ []) :
    (∃ l, makeCepnames si names = some l ∧ l.length = names.length) ∧
    (∀ name t, pySplit name = [t] → pyCepstr si name = some (pyTake t 8)) ∧
    (∀ (names2 : List String) (name : String), name ∈ names2 →
      pySplit name = [] → makeCepnames si names2 = none) := by
  refine ⟨?_, ?_, ?_⟩
  · obtain ⟨l, hl, hlen⟩ := mcnAux_total si names [] 1 h
    exact ⟨l, hl, by simpa using hlen⟩
  · exact fun name t ht => pyCepstr_single si name t ht
  · exact fun names2 name hm hs => mcnAux_fail si names2 [] 1 name hm hs

theorem makeCepnames_totality_witness :
    ∃ l, makeCepnames false ["Abies alba", "Picea"] = some l ∧
      l.length = ["Abies alba", "Picea"].length :=
  (makeCepnames_totality false ["Abies alba", "Picea"] (by decide)).1
